import Mathlib

/-
  Verification of the image-moderation Slack chatbot handler
  (src/lambda_functions/moderate_image.py).

  The Python module is a single Lambda handler with helper functions.  We
  embed it shallowly: Python dicts with possibly-missing keys become
  structures of Option fields (a `dict[key]` access on a missing key is a
  KeyError, modelled in the Except error monad; `dict.get(key)` is the
  Option value itself).  The three external collaborators (the HTTP
  download of the image, the Rekognition moderation call, and the two
  Slack Web API mutations) are modelled by an oracle `World` supplying the
  responses of the first two, while every outbound call the handler issues
  is recorded in an ordered trace of `Call` values.
-/

namespace ModerateImage

/-- `SUPPORTED_TYPES` from the source: supported image MIME types. -/
def SUPPORTED_TYPES : List String := ["image/jpeg", "image/jpg", "image/png"]

/-- `MAX_SIZE` from the source: max number of image bytes supported by
Amazon Rekognition (5MiB). -/
def MAX_SIZE : Nat := 5242880

/-- The nested `file` object of an inbound Slack event.  Every field is
optional because a Python dict may lack the key. -/
structure FileDetails where
  id : Option String
  mimetype : Option String
  size : Option Nat
  url_private : Option String
deriving DecidableEq, Repr

/-- The nested `event` object of an inbound Slack event. -/
structure EventDetails where
  subtype : Option String
  channel : Option String
  file : Option FileDetails
deriving DecidableEq, Repr

/-- The inbound event payload delivered to the handler. -/
structure SlackEvent where
  token : Option String
  challenge : Option String
  event : Option EventDetails
deriving DecidableEq, Repr

/-- One entry of the `ModerationLabels` list returned by Rekognition. -/
structure ModerationLabel where
  name : String
  confidence : Rat
deriving DecidableEq, Repr

/-- Process-wide configuration read from the environment at start
(VERIFICATION_TOKEN, ACCESS_TOKEN, MIN_CONFIDENCE). -/
structure Config where
  VERIFICATION_TOKEN : String
  ACCESS_TOKEN : String
  MIN_CONFIDENCE : Rat
deriving DecidableEq, Repr

/-- Responses of the external collaborators: the download of a private
URL yields bytes or a transport error, and the Rekognition
`detect_moderation_labels` call on given bytes and confidence floor
yields a label list or an exception message. -/
structure World where
  download : String → Except String (List Nat)
  moderation : List Nat → Rat → Except String (List ModerationLabel)

/-- Python exceptions that can escape the handler. -/
inductive Err where
  | keyError (key : String)
  | transportError (msg : String)
  | moderationError (msg : String)
deriving DecidableEq, Repr

/-- An outbound call issued by the handler, in the order issued. -/
inductive Call where
  | httpGet (url : String) (authHeader : String)
  | rekognitionDetect (imageBytes : List Nat) (minConfidence : Rat)
  | httpPost (url : String) (formData : List (String × String))
deriving DecidableEq, Repr

/-- What `lambda_handler` returns on normal termination: Python `None`,
or the challenge-echo dict. -/
inductive HandlerReturn where
  | none
  | challengeEcho (challenge : String)
deriving DecidableEq, Repr

/-- `verify_token` from the source: `event['token']` (KeyError when the
key is missing) compared against the configured verification token. -/
def verify_token (cfg : Config) (event : SlackEvent) : Except Err Bool :=
  match event.token with
  | Option.none => Except.error (Err.keyError "token")
  | Option.some t =>
      if t ≠ cfg.VERIFICATION_TOKEN then Except.ok false else Except.ok true

/-- `validate_event` from the source: `event['event']` (KeyError if
missing), then `.get('subtype')` compared with `'file_share'`, then
`['file']`, `['mimetype']`, `['size']` (each a KeyError if missing),
then the mimetype and size checks. -/
def validate_event (event : SlackEvent) : Except Err Bool :=
  match event.event with
  | Option.none => Except.error (Err.keyError "event")
  | Option.some event_details =>
      if event_details.subtype ≠ Option.some "file_share" then Except.ok false
      else
        match event_details.file with
        | Option.none => Except.error (Err.keyError "file")
        | Option.some file_details =>
            match file_details.mimetype with
            | Option.none => Except.error (Err.keyError "mimetype")
            | Option.some mime_type =>
                match file_details.size with
                | Option.none => Except.error (Err.keyError "size")
                | Option.some file_size =>
                    if mime_type ∉ SUPPORTED_TYPES then Except.ok false
                    else if file_size > MAX_SIZE then Except.ok false
                    else Except.ok true

/-- `download_image` from the source: an authenticated GET on the private
URL with a bearer authorization header; returns the response bytes, and
any transport error propagates.  The first component is the outbound
call issued, the second the outcome. -/
def download_image (cfg : Config) (w : World) (url : String) :
    List Call × Except Err (List Nat) :=
  ([Call.httpGet url ("Bearer " ++ cfg.ACCESS_TOKEN)],
   match w.download url with
   | Except.error e => Except.error (Err.transportError e)
   | Except.ok bytes => Except.ok bytes)

/-- `detect_explicit_content` from the source: calls Rekognition
`detect_moderation_labels` with the image bytes and `MIN_CONFIDENCE`
floor; any exception is re-raised; otherwise the verdict is false on an
empty `ModerationLabels` list and true otherwise. -/
def detect_explicit_content (cfg : Config) (w : World) (image_bytes : List Nat) :
    List Call × Except Err Bool :=
  ([Call.rekognitionDetect image_bytes cfg.MIN_CONFIDENCE],
   match w.moderation image_bytes cfg.MIN_CONFIDENCE with
   | Except.error e => Except.error (Err.moderationError e)
   | Except.ok labels =>
       if labels.isEmpty then Except.ok false else Except.ok true)

/-- `delete_file` from the source: the form-encoded POST to the Slack
file-deletion endpoint, carrying the access token and the file id. -/
def delete_file (cfg : Config) (file_id : String) : Call :=
  Call.httpPost "https://slack.com/api/files.delete"
    [("token", cfg.ACCESS_TOKEN), ("file", file_id)]

/-- `post_message` from the source: the form-encoded POST to the Slack
message-post endpoint, carrying the access token, the channel and the
fixed notification text. -/
def post_message (cfg : Config) (channel : String) : Call :=
  Call.httpPost "https://slack.com/api/chat.postMessage"
    [("token", cfg.ACCESS_TOKEN), ("channel", channel),
     ("text", "File removed due to displaying explicit or suggestive adult content.")]

/-- `lambda_handler` from the source, returning the ordered trace of
outbound calls together with either an uncaught exception or the
returned value.  The control flow mirrors the source line by line:
token check, challenge echo, validation, extraction of
`channel` / `url_private` / `id` (each a potential KeyError), download,
moderation, and on an explicit verdict the delete followed by the
notification post. -/
def lambda_handler (cfg : Config) (w : World) (event : SlackEvent) :
    List Call × Except Err HandlerReturn :=
  match verify_token cfg event with
  | Except.error e => ([], Except.error e)
  | Except.ok false => ([], Except.ok HandlerReturn.none)
  | Except.ok true =>
      match event.challenge with
      | Option.some challenge =>
          ([], Except.ok (HandlerReturn.challengeEcho challenge))
      | Option.none =>
          match validate_event event with
          | Except.error e => ([], Except.error e)
          | Except.ok false => ([], Except.ok HandlerReturn.none)
          | Except.ok true =>
              match event.event with
              | Option.none => ([], Except.error (Err.keyError "event"))
              | Option.some event_details =>
                  match event_details.file with
                  | Option.none => ([], Except.error (Err.keyError "file"))
                  | Option.some file_details =>
                      match event_details.channel with
                      | Option.none => ([], Except.error (Err.keyError "channel"))
                      | Option.some channel =>
                          match file_details.url_private with
                          | Option.none => ([], Except.error (Err.keyError "url_private"))
                          | Option.some url =>
                              match file_details.id with
                              | Option.none => ([], Except.error (Err.keyError "id"))
                              | Option.some file_id =>
                                  let dl := download_image cfg w url
                                  match dl.2 with
                                  | Except.error e => (dl.1, Except.error e)
                                  | Except.ok image_bytes =>
                                      let det := detect_explicit_content cfg w image_bytes
                                      match det.2 with
                                      | Except.error e => (dl.1 ++ det.1, Except.error e)
                                      | Except.ok is_explicit =>
                                          if is_explicit then
                                            (dl.1 ++ det.1 ++
                                              [delete_file cfg file_id, post_message cfg channel],
                                             Except.ok HandlerReturn.none)
                                          else
                                            (dl.1 ++ det.1, Except.ok HandlerReturn.none)

/-- Is a call the Slack file-deletion POST? -/
def isFileDelete : Call → Bool
  | Call.httpPost url _ => url = "https://slack.com/api/files.delete"
  | _ => false

/-- Is a call the Slack message-post POST? -/
def isMessagePost : Call → Bool
  | Call.httpPost url _ => url = "https://slack.com/api/chat.postMessage"
  | _ => false

/-- A well-formed `file_share` event used to state the claims about the
processing path: matching token, no challenge, and all nested fields
present. -/
def mkFileShareEvent (tok ch fid mt : String) (sz : Nat) (url : String) : SlackEvent :=
  { token := Option.some tok
    challenge := Option.none
    event := Option.some
      { subtype := Option.some "file_share"
        channel := Option.some ch
        file := Option.some
          { id := Option.some fid
            mimetype := Option.some mt
            size := Option.some sz
            url_private := Option.some url } } }

/-- A concrete configuration used to instantiate the theorems. -/
def wCfg : Config :=
  { VERIFICATION_TOKEN := "vtok", ACCESS_TOKEN := "xoxp-secret", MIN_CONFIDENCE := 80 }

/-- A concrete moderation label above the confidence floor of `wCfg`. -/
def explicitLabel : ModerationLabel := { name := "Explicit Nudity", confidence := 90 }

/-- A world whose moderation call flags every image with one label. -/
def wWorldExplicit : World :=
  { download := fun _ => Except.ok [1, 2, 3]
    moderation := fun _ _ => Except.ok [explicitLabel] }

/-- A world whose moderation call returns an empty label list. -/
def wWorldClean : World :=
  { download := fun _ => Except.ok [1, 2, 3]
    moderation := fun _ _ => Except.ok [] }

/-- A world whose moderation call raises an exception. -/
def wWorldFailing : World :=
  { download := fun _ => Except.ok [1, 2, 3]
    moderation := fun _ _ => Except.error "ImageTooLargeException" }

/-- A concrete event carrying a URL-verification challenge together with a
token that does not match `wCfg`. -/
def evChallengeBadToken : SlackEvent :=
  { token := Option.some "wrong", challenge := Option.some "abc123", event := Option.none }

/-- Concrete nested event details with a non-file_share subtype. -/
def edMessageChanged : EventDetails :=
  { subtype := Option.some "message_changed", channel := Option.none, file := Option.none }

/-- A concrete valid-token event whose subtype is not `file_share`. -/
def evMessageChanged : SlackEvent :=
  { token := Option.some wCfg.VERIFICATION_TOKEN, challenge := Option.none
    event := Option.some edMessageChanged }

/-- A concrete valid-token event lacking the nested `event` object. -/
def evNoNestedEvent : SlackEvent :=
  { token := Option.some wCfg.VERIFICATION_TOKEN, challenge := Option.none
    event := Option.none }

/-- C1: for every invocation where the token matches, the event is a valid
`file_share` with a supported mimetype and size within bounds, the download
succeeds, and the moderation call returns at least one label at or above the
configured confidence floor, the handler makes exactly one file-deletion call
carrying the event's file id and exactly one message-post call carrying the
event's channel and the fixed notification text, and the full outbound trace
is download, moderation, deletion, post in that order, so the deletion call
occurs before the post call. -/
theorem claim_C1_explicit_delete_then_notify (cfg : Config) (w : World)
    (ch fid mt : String) (sz : Nat) (url : String)
    (bytes : List Nat) (labels : List ModerationLabel)
    (hmt : mt ∈ SUPPORTED_TYPES) (hsz : sz ≤ MAX_SIZE)
    (hdl : w.download url = Except.ok bytes)
    (hmod : w.moderation bytes cfg.MIN_CONFIDENCE = Except.ok labels)
    (hlab : ∃ l ∈ labels, cfg.MIN_CONFIDENCE ≤ l.confidence) :
    ((lambda_handler cfg w (mkFileShareEvent cfg.VERIFICATION_TOKEN ch fid mt sz url)).1.filter
        isFileDelete = [delete_file cfg fid]) ∧
    ((lambda_handler cfg w (mkFileShareEvent cfg.VERIFICATION_TOKEN ch fid mt sz url)).1.filter
        isMessagePost = [post_message cfg ch]) ∧
    (lambda_handler cfg w (mkFileShareEvent cfg.VERIFICATION_TOKEN ch fid mt sz url)).1
      = [Call.httpGet url ("Bearer " ++ cfg.ACCESS_TOKEN),
         Call.rekognitionDetect bytes cfg.MIN_CONFIDENCE,
         delete_file cfg fid, post_message cfg ch] := by
  obtain ⟨l, hl, -⟩ := hlab
  have hne : labels.isEmpty = false := by
    cases labels with
    | nil => cases hl
    | cons a as => rfl
  have htrace : (lambda_handler cfg w
      (mkFileShareEvent cfg.VERIFICATION_TOKEN ch fid mt sz url)).1
      = [Call.httpGet url ("Bearer " ++ cfg.ACCESS_TOKEN),
         Call.rekognitionDetect bytes cfg.MIN_CONFIDENCE,
         delete_file cfg fid, post_message cfg ch] := by
    simp [lambda_handler, mkFileShareEvent, verify_token, validate_event,
      download_image, detect_explicit_content, hdl, hmod, hne, hmt,
      Nat.not_lt.mpr hsz]
  refine ⟨?_, ?_, htrace⟩ <;> rw [htrace] <;>
    simp [isFileDelete, isMessagePost, delete_file, post_message]

/-- Witness for C1 at a concrete configuration, world and event. -/
theorem claim_C1_witness :
    ((lambda_handler wCfg wWorldExplicit
        (mkFileShareEvent wCfg.VERIFICATION_TOKEN "C0001" "F0001" "image/png" 1000
          "https://files.example/a")).1.filter
        isFileDelete = [delete_file wCfg "F0001"]) ∧
    ((lambda_handler wCfg wWorldExplicit
        (mkFileShareEvent wCfg.VERIFICATION_TOKEN "C0001" "F0001" "image/png" 1000
          "https://files.example/a")).1.filter
        isMessagePost = [post_message wCfg "C0001"]) ∧
    (lambda_handler wCfg wWorldExplicit
        (mkFileShareEvent wCfg.VERIFICATION_TOKEN "C0001" "F0001" "image/png" 1000
          "https://files.example/a")).1
      = [Call.httpGet "https://files.example/a" ("Bearer " ++ wCfg.ACCESS_TOKEN),
         Call.rekognitionDetect [1, 2, 3] wCfg.MIN_CONFIDENCE,
         delete_file wCfg "F0001", post_message wCfg "C0001"] :=
  claim_C1_explicit_delete_then_notify wCfg wWorldExplicit "C0001" "F0001" "image/png" 1000
    "https://files.example/a" [1, 2, 3] [explicitLabel] (by decide) (by decide) rfl rfl
    ⟨explicitLabel, by decide, by decide⟩

/-- C2: when the moderation call returns a label list, the verdict of
`detect_explicit_content` is true exactly when the list is non-empty, and
when the list is empty the handler makes no file-deletion and no
message-post call and returns Python `None`. -/
theorem claim_C2_verdict_iff_labels_nonempty (cfg : Config) (w : World)
    (ch fid mt : String) (sz : Nat) (url : String)
    (bytes : List Nat) (labels : List ModerationLabel)
    (hmt : mt ∈ SUPPORTED_TYPES) (hsz : sz ≤ MAX_SIZE)
    (hdl : w.download url = Except.ok bytes)
    (hmod : w.moderation bytes cfg.MIN_CONFIDENCE = Except.ok labels) :
    ((detect_explicit_content cfg w bytes).2 = Except.ok true ↔ labels ≠ []) ∧
    (labels = [] →
      (lambda_handler cfg w (mkFileShareEvent cfg.VERIFICATION_TOKEN ch fid mt sz url)).1.filter
          isFileDelete = [] ∧
      (lambda_handler cfg w (mkFileShareEvent cfg.VERIFICATION_TOKEN ch fid mt sz url)).1.filter
          isMessagePost = [] ∧
      (lambda_handler cfg w (mkFileShareEvent cfg.VERIFICATION_TOKEN ch fid mt sz url)).2
        = Except.ok HandlerReturn.none ∧
      (detect_explicit_content cfg w bytes).2 = Except.ok false) := by
  constructor
  · simp only [detect_explicit_content, hmod]
    cases labels with
    | nil => simp
    | cons a as => simp
  · intro hempty
    subst hempty
    refine ⟨?_, ?_, ?_, ?_⟩ <;>
      simp [lambda_handler, mkFileShareEvent, verify_token, validate_event,
        download_image, detect_explicit_content, hdl, hmod, hmt,
        Nat.not_lt.mpr hsz, isFileDelete, isMessagePost]

/-- Witness for C2 with a moderation call returning zero labels. -/
theorem claim_C2_witness :
    ((detect_explicit_content wCfg wWorldClean [1, 2, 3]).2 = Except.ok true ↔
      ([] : List ModerationLabel) ≠ []) ∧
    ((lambda_handler wCfg wWorldClean
        (mkFileShareEvent wCfg.VERIFICATION_TOKEN "C0002" "F0002" "image/jpeg" 0
          "https://files.example/b")).1.filter isFileDelete = [] ∧
     (lambda_handler wCfg wWorldClean
        (mkFileShareEvent wCfg.VERIFICATION_TOKEN "C0002" "F0002" "image/jpeg" 0
          "https://files.example/b")).1.filter isMessagePost = [] ∧
     (lambda_handler wCfg wWorldClean
        (mkFileShareEvent wCfg.VERIFICATION_TOKEN "C0002" "F0002" "image/jpeg" 0
          "https://files.example/b")).2 = Except.ok HandlerReturn.none ∧
     (detect_explicit_content wCfg wWorldClean [1, 2, 3]).2 = Except.ok false) :=
  ⟨(claim_C2_verdict_iff_labels_nonempty wCfg wWorldClean "C0002" "F0002" "image/jpeg" 0
      "https://files.example/b" [1, 2, 3] [] (by decide) (by decide) rfl rfl).1,
   (claim_C2_verdict_iff_labels_nonempty wCfg wWorldClean "C0002" "F0002" "image/jpeg" 0
      "https://files.example/b" [1, 2, 3] [] (by decide) (by decide) rfl rfl).2 rfl⟩

/-- C3: for every inbound event whose token differs from the configured
verification token, the handler performs zero outbound calls and returns
Python `None`. -/
theorem claim_C3_bad_token_noop (cfg : Config) (w : World) (ev : SlackEvent) (t : String)
    (htok : ev.token = Option.some t) (hne : t ≠ cfg.VERIFICATION_TOKEN) :
    lambda_handler cfg w ev = ([], Except.ok HandlerReturn.none) := by
  simp [lambda_handler, verify_token, htok, hne]

/-- Witness for C3 at a concrete mismatching token. -/
theorem claim_C3_witness :
    lambda_handler wCfg wWorldExplicit
      { token := Option.some "bad", challenge := Option.none, event := Option.none }
      = ([], Except.ok HandlerReturn.none) :=
  claim_C3_bad_token_noop wCfg wWorldExplicit
    { token := Option.some "bad", challenge := Option.none, event := Option.none }
    "bad" rfl (by decide)

/-- Counterexample to C4 as stated: an event carrying `challenge = "abc123"`
but a token that does not match the configured verification token is not
answered with the challenge echo (the handler returns `None` instead),
so the unconditional claim fails. -/
theorem claim_C4_counterexample :
    (lambda_handler wCfg wWorldExplicit evChallengeBadToken).2
      ≠ Except.ok (HandlerReturn.challengeEcho "abc123") := by
  simp [lambda_handler, verify_token, evChallengeBadToken, wCfg]

/-- C4 (amended): for every inbound event whose token matches the configured
verification token and that carries a challenge field, the handler returns
exactly the challenge-echo object and performs zero outbound calls. -/
theorem claim_C4_amended_challenge_echo (cfg : Config) (w : World) (ev : SlackEvent)
    (c : String)
    (htok : ev.token = Option.some cfg.VERIFICATION_TOKEN)
    (hch : ev.challenge = Option.some c) :
    lambda_handler cfg w ev = ([], Except.ok (HandlerReturn.challengeEcho c)) := by
  simp [lambda_handler, verify_token, htok, hch]

/-- Witness for the amended C4 at a concrete matching-token event. -/
theorem claim_C4_witness :
    lambda_handler wCfg wWorldExplicit
      { token := Option.some wCfg.VERIFICATION_TOKEN, challenge := Option.some "abc123",
        event := Option.none }
      = ([], Except.ok (HandlerReturn.challengeEcho "abc123")) :=
  claim_C4_amended_challenge_echo wCfg wWorldExplicit
    { token := Option.some wCfg.VERIFICATION_TOKEN, challenge := Option.some "abc123",
      event := Option.none }
    "abc123" rfl rfl

/-- C5: when the moderation call raises, the error propagates uncaught out
of the handler as a moderation error, the outbound trace stops at the
download and moderation calls, and no file-deletion and no message-post
call is made. -/
theorem claim_C5_moderation_error_propagates (cfg : Config) (w : World)
    (ch fid mt : String) (sz : Nat) (url : String)
    (bytes : List Nat) (msg : String)
    (hmt : mt ∈ SUPPORTED_TYPES) (hsz : sz ≤ MAX_SIZE)
    (hdl : w.download url = Except.ok bytes)
    (hmod : w.moderation bytes cfg.MIN_CONFIDENCE = Except.error msg) :
    lambda_handler cfg w (mkFileShareEvent cfg.VERIFICATION_TOKEN ch fid mt sz url)
      = ([Call.httpGet url ("Bearer " ++ cfg.ACCESS_TOKEN),
          Call.rekognitionDetect bytes cfg.MIN_CONFIDENCE],
         Except.error (Err.moderationError msg)) ∧
    (lambda_handler cfg w (mkFileShareEvent cfg.VERIFICATION_TOKEN ch fid mt sz url)).1.filter
      isFileDelete = [] ∧
    (lambda_handler cfg w (mkFileShareEvent cfg.VERIFICATION_TOKEN ch fid mt sz url)).1.filter
      isMessagePost = [] := by
  refine ⟨?_, ?_, ?_⟩ <;>
    simp [lambda_handler, mkFileShareEvent, verify_token, validate_event,
      download_image, detect_explicit_content, hdl, hmod, hmt,
      Nat.not_lt.mpr hsz, isFileDelete, isMessagePost]

/-- Witness for C5 with a failing moderation world. -/
theorem claim_C5_witness :
    lambda_handler wCfg wWorldFailing
      (mkFileShareEvent wCfg.VERIFICATION_TOKEN "C0005" "F0005" "image/jpg" 5
        "https://files.example/c")
      = ([Call.httpGet "https://files.example/c" ("Bearer " ++ wCfg.ACCESS_TOKEN),
          Call.rekognitionDetect [1, 2, 3] wCfg.MIN_CONFIDENCE],
         Except.error (Err.moderationError "ImageTooLargeException")) ∧
    (lambda_handler wCfg wWorldFailing
      (mkFileShareEvent wCfg.VERIFICATION_TOKEN "C0005" "F0005" "image/jpg" 5
        "https://files.example/c")).1.filter isFileDelete = [] ∧
    (lambda_handler wCfg wWorldFailing
      (mkFileShareEvent wCfg.VERIFICATION_TOKEN "C0005" "F0005" "image/jpg" 5
        "https://files.example/c")).1.filter isMessagePost = [] :=
  claim_C5_moderation_error_propagates wCfg wWorldFailing "C0005" "F0005" "image/jpg" 5
    "https://files.example/c" [1, 2, 3] "ImageTooLargeException"
    (by decide) (by decide) rfl rfl

/-- C6: a `file_share` event with a supported mimetype and size 5242881
(one byte over `MAX_SIZE`) produces zero outbound calls, while size 5242880
(exactly `MAX_SIZE`) passes validation and processing proceeds to the
download step, whose GET is the first outbound call. -/
theorem claim_C6_size_boundary (cfg : Config) (w : World) (ch fid mt url : String)
    (hmt : mt ∈ SUPPORTED_TYPES) :
    lambda_handler cfg w (mkFileShareEvent cfg.VERIFICATION_TOKEN ch fid mt 5242881 url)
      = ([], Except.ok HandlerReturn.none) ∧
    validate_event (mkFileShareEvent cfg.VERIFICATION_TOKEN ch fid mt 5242880 url)
      = Except.ok true ∧
    (lambda_handler cfg w (mkFileShareEvent cfg.VERIFICATION_TOKEN ch fid mt 5242880 url)).1.head?
      = Option.some (Call.httpGet url ("Bearer " ++ cfg.ACCESS_TOKEN)) := by
  refine ⟨?_, ?_, ?_⟩
  · simp [lambda_handler, mkFileShareEvent, verify_token, validate_event, hmt, MAX_SIZE]
  · simp [validate_event, mkFileShareEvent, hmt, MAX_SIZE]
  · rcases hdl : w.download url with e | bytes
    · simp [lambda_handler, mkFileShareEvent, verify_token, validate_event,
        download_image, hmt, MAX_SIZE, hdl]
    · rcases hmod : w.moderation bytes cfg.MIN_CONFIDENCE with e | labels
      · simp [lambda_handler, mkFileShareEvent, verify_token, validate_event,
          download_image, detect_explicit_content, hmt, MAX_SIZE, hdl, hmod]
      · cases labels with
        | nil =>
          simp [lambda_handler, mkFileShareEvent, verify_token, validate_event,
            download_image, detect_explicit_content, hmt, MAX_SIZE, hdl, hmod]
        | cons a as =>
          simp [lambda_handler, mkFileShareEvent, verify_token, validate_event,
            download_image, detect_explicit_content, hmt, MAX_SIZE, hdl, hmod]

/-- Witness for C6 at a concrete configuration and world. -/
theorem claim_C6_witness :
    lambda_handler wCfg wWorldExplicit
      (mkFileShareEvent wCfg.VERIFICATION_TOKEN "C0006" "F0006" "image/png" 5242881
        "https://files.example/d")
      = ([], Except.ok HandlerReturn.none) ∧
    validate_event (mkFileShareEvent wCfg.VERIFICATION_TOKEN "C0006" "F0006" "image/png" 5242880
        "https://files.example/d")
      = Except.ok true ∧
    (lambda_handler wCfg wWorldExplicit
      (mkFileShareEvent wCfg.VERIFICATION_TOKEN "C0006" "F0006" "image/png" 5242880
        "https://files.example/d")).1.head?
      = Option.some (Call.httpGet "https://files.example/d" ("Bearer " ++ wCfg.ACCESS_TOKEN)) :=
  claim_C6_size_boundary wCfg wWorldExplicit "C0006" "F0006" "image/png"
    "https://files.example/d" (by decide)

/-- C7: for every event with a matching token and no challenge whose nested
subtype is not `file_share`, or whose file mimetype is present but
unsupported, the handler performs zero outbound calls and returns
Python `None`. -/
theorem claim_C7_nonimage_event_noop (cfg : Config) (w : World) (ev : SlackEvent)
    (ed : EventDetails)
    (htok : ev.token = Option.some cfg.VERIFICATION_TOKEN)
    (hch : ev.challenge = Option.none)
    (hev : ev.event = Option.some ed)
    (hbad : ed.subtype ≠ Option.some "file_share" ∨
      ∃ fd m s, ed.file = Option.some fd ∧ fd.mimetype = Option.some m ∧
        fd.size = Option.some s ∧ m ∉ SUPPORTED_TYPES) :
    lambda_handler cfg w ev = ([], Except.ok HandlerReturn.none) := by
  rcases hbad with hsub | ⟨fd, m, s, hfd, hm, hs, hmem⟩
  · simp [lambda_handler, verify_token, validate_event, htok, hch, hev, hsub]
  · by_cases hsub : ed.subtype = Option.some "file_share"
    · simp [lambda_handler, verify_token, validate_event, htok, hch, hev, hsub,
        hfd, hm, hs, hmem]
    · simp [lambda_handler, verify_token, validate_event, htok, hch, hev, hsub]

/-- Witness for C7 at a concrete non-file_share event. -/
theorem claim_C7_witness :
    lambda_handler wCfg wWorldExplicit evMessageChanged = ([], Except.ok HandlerReturn.none) :=
  claim_C7_nonimage_event_noop wCfg wWorldExplicit evMessageChanged edMessageChanged
    rfl rfl rfl (Or.inl (by decide))

/-- C8: for every inbound event lacking the `token` key, the handler raises
a KeyError before performing any outbound call. -/
theorem claim_C8_missing_token_key_error (cfg : Config) (w : World) (ev : SlackEvent)
    (htok : ev.token = Option.none) :
    lambda_handler cfg w ev = ([], Except.error (Err.keyError "token")) := by
  simp [lambda_handler, verify_token, htok]

/-- Witness for C8 at a concrete tokenless event. -/
theorem claim_C8_witness :
    lambda_handler wCfg wWorldExplicit
      { token := Option.none, challenge := Option.none, event := Option.none }
      = ([], Except.error (Err.keyError "token")) :=
  claim_C8_missing_token_key_error wCfg wWorldExplicit
    { token := Option.none, challenge := Option.none, event := Option.none } rfl

/-- C9: for every matching-token, challenge-free event that lacks the nested
`event` object, or is a `file_share` whose `file` object, `mimetype` or
`size` key is missing, the handler raises a KeyError rather than returning
a silent no-op, and performs zero outbound calls. -/
theorem claim_C9_missing_nested_key_error (cfg : Config) (w : World) (ev : SlackEvent)
    (htok : ev.token = Option.some cfg.VERIFICATION_TOKEN)
    (hch : ev.challenge = Option.none)
    (hmiss : ev.event = Option.none ∨
      ∃ ed, ev.event = Option.some ed ∧ ed.subtype = Option.some "file_share" ∧
        (ed.file = Option.none ∨
          ∃ fd, ed.file = Option.some fd ∧
            (fd.mimetype = Option.none ∨
              ∃ m, fd.mimetype = Option.some m ∧ fd.size = Option.none))) :
    (lambda_handler cfg w ev).1 = [] ∧
    ∃ k, (lambda_handler cfg w ev).2 = Except.error (Err.keyError k) := by
  rcases hmiss with hev | ⟨ed, hev, hsub, hfile⟩
  · refine ⟨?_, "event", ?_⟩ <;>
      simp [lambda_handler, verify_token, validate_event, htok, hch, hev]
  · rcases hfile with hfd | ⟨fd, hfd, hmime⟩
    · refine ⟨?_, "file", ?_⟩ <;>
        simp [lambda_handler, verify_token, validate_event, htok, hch, hev, hsub, hfd]
    · rcases hmime with hm | ⟨m, hm, hs⟩
      · refine ⟨?_, "mimetype", ?_⟩ <;>
          simp [lambda_handler, verify_token, validate_event, htok, hch, hev, hsub, hfd, hm]
      · refine ⟨?_, "size", ?_⟩ <;>
          simp [lambda_handler, verify_token, validate_event, htok, hch, hev, hsub, hfd,
            hm, hs]

/-- Witness for C9 at a concrete event lacking the nested object. -/
theorem claim_C9_witness :
    (lambda_handler wCfg wWorldExplicit evNoNestedEvent).1 = [] ∧
    ∃ k, (lambda_handler wCfg wWorldExplicit evNoNestedEvent).2
      = Except.error (Err.keyError k) :=
  claim_C9_missing_nested_key_error wCfg wWorldExplicit evNoNestedEvent rfl rfl (Or.inl rfl)

/-- C10: the challenge echo is gated by the token check: an event carrying a
challenge but a mismatching token gets the empty result, not the echo, and
zero outbound calls. -/
theorem claim_C10_echo_gated_by_token (cfg : Config) (w : World) (ev : SlackEvent)
    (t c : String)
    (htok : ev.token = Option.some t) (hne : t ≠ cfg.VERIFICATION_TOKEN)
    (hch : ev.challenge = Option.some c) :
    lambda_handler cfg w ev = ([], Except.ok HandlerReturn.none) := by
  simp [lambda_handler, verify_token, htok, hne]

/-- Witness for C10 at the concrete challenge-with-bad-token event. -/
theorem claim_C10_witness :
    lambda_handler wCfg wWorldExplicit evChallengeBadToken
      = ([], Except.ok HandlerReturn.none) :=
  claim_C10_echo_gated_by_token wCfg wWorldExplicit evChallengeBadToken "wrong" "abc123"
    rfl (by decide) rfl

end ModerateImage
